import Mathlib

/-!
Shallow embedding of the Aegis ai-engine detection pipeline
(`src/ai-engine/app/services/{preprocessing,anomaly_detector,failure_detector,model_service}.py`)
and proofs about it.

Numbers are modelled by `ℚ` (the Python code computes with float64; none of the
verified claims hinges on rounding).  Timestamps are modelled by `ℤ` (seconds).
External fitted sklearn models (IsolationForest / RandomForest) are modelled as
oracles returning `Except String _`, which also represents any exception they
may raise; Python `try/except` blocks become `match` on the `Except` value.
-/

namespace Aegis

/-- `app/schemas/inference.py` — `SeverityLevel`. -/
inductive SeverityLevel where
  | low | medium | high | critical
deriving DecidableEq, Repr

/-- `app/schemas/inference.py` — `RemediationAction`. -/
inductive RemediationAction where
  | scale_up | scale_down | restart_pod | throttle_api | clear_cache | no_action | alert_admin
deriving DecidableEq, Repr

/-- `app/schemas/inference.py` — `MetricType` (string-valued enum). -/
inductive MetricType where
  | cpu_usage | memory_usage | request_rate | error_rate | response_time | disk_io
deriving DecidableEq, Repr

/-- The `.value` string of a `MetricType` member. -/
def MetricType.value : MetricType → String
  | .cpu_usage => "cpu_usage"
  | .memory_usage => "memory_usage"
  | .request_rate => "request_rate"
  | .error_rate => "error_rate"
  | .response_time => "response_time"
  | .disk_io => "disk_io"

/-- `app/schemas/inference.py` — `MetricData` (the `metadata` field is never read
by the pipeline and is omitted).  `labels : Dict[str, str]` is an insertion-ordered
dict, modelled as an association list with unique keys in insertion order. -/
structure MetricData where
  metric_type : MetricType
  value : ℚ
  timestamp : ℤ
  labels : List (String × String)
deriving DecidableEq, Repr

/-- `app/schemas/inference.py` — `LogData` (unused `metadata` omitted). -/
structure LogData where
  timestamp : ℤ
  level : String
  message : String
  service : String
deriving DecidableEq, Repr

/-! ### Python primitives used by the services -/

/-- Is `pat` a prefix of `hay`? (char-list version of Python `str.startswith`,
used only to build the substring test). -/
def isPreOf : List Char → List Char → Bool
  | [], _ => true
  | _ :: _, [] => false
  | c :: cs, d :: ds => c == d && isPreOf cs ds

/-- Python's substring test `pat in hay` over char lists (an empty pattern is
always contained). -/
def subIn (pat : List Char) : List Char → Bool
  | [] => isPreOf pat []
  | d :: ds => isPreOf pat (d :: ds) || subIn pat ds

/-- Python `pat in hay` for strings. -/
def strContains (hay pat : String) : Bool :=
  subIn pat.toList hay.toList

/-- ASCII lower-casing of one character (all strings the pipeline lower-cases
and matches are ASCII, so this coincides with Python `str.lower` on them). -/
def lowerChar (c : Char) : Char :=
  if 65 ≤ c.toNat && c.toNat ≤ 90 then Char.ofNat (c.toNat + 32) else c

/-- Python `s.lower()` (ASCII). -/
def lowerStr (s : String) : String :=
  String.mk (s.data.map lowerChar)

/-- Insert `x` after every earlier element `y` with `le y x` (the stable
insertion step of a sort). -/
def insTo {α : Type} (le : α → α → Bool) (x : α) : List α → List α
  | [] => [x]
  | y :: ys => if le y x then y :: insTo le x ys else x :: y :: ys

/-- Stable sort by the total comparator `le` (Python `sorted` /
`pandas.sort_values` are modelled as stable; no verified claim depends on a
tie order where the source's sort could differ). -/
def stableSortBy {α : Type} (le : α → α → Bool) (l : List α) : List α :=
  l.foldl (fun acc x => insTo le x acc) []

/-- Lexicographic code-point order on char lists (Python string `<=`). -/
def charListLe : List Char → List Char → Bool
  | [], _ => true
  | _ :: _, [] => false
  | c :: cs, d :: ds =>
    if c.toNat < d.toNat then true
    else if d.toNat < c.toNat then false
    else charListLe cs ds

/-- Python string `<=`. -/
def strLeB (a b : String) : Bool := charListLe a.toList b.toList

/-- Python `abs` on a rational. -/
def qAbs (q : ℚ) : ℚ := if q < 0 then -q else q

/-- Insert/update one key of a Python dict (later assignment overwrites the
value but keeps the key's original position). -/
def dictInsert {α : Type} (k : String) (v : α) : List (String × α) → List (String × α)
  | [] => [(k, v)]
  | (k', v') :: t => if k' == k then (k', v) :: t else (k', v') :: dictInsert k v t

/-- Python `dict(zip(names, row))`: build a dict from zipped pairs in order
(duplicate names: the last value wins, first position kept). -/
def pyDictOfZip (ks : List String) (vs : List ℚ) : List (String × ℚ) :=
  (List.zip ks vs).foldl (fun d p => dictInsert p.1 p.2 d) []

/-- Python `d.get(k, dflt)`. -/
def dictGetD {α : Type} (d : List (String × α)) (k : String) (dflt : α) : α :=
  match d.find? (fun p => p.1 == k) with
  | some p => p.2
  | none => dflt

/-- Python `k in d` for a dict. -/
def dictHas {α : Type} (d : List (String × α)) (k : String) : Bool :=
  d.any (fun p => p.1 == k)

/-- `np.mean` of a list of rationals (callers guard against the empty list). -/
def listMean (l : List ℚ) : ℚ :=
  l.sum / l.length

/-- First-occurrence deduplication (used where Python iterates over distinct
values; order of first appearance). -/
def uniq {α : Type} [DecidableEq α] (l : List α) : List α :=
  l.foldl (fun acc x => if acc.contains x then acc else acc ++ [x]) []

/-- Python `sorted` on strings (lexicographic by code point, stable). -/
def sortStrings (l : List String) : List String :=
  stableSortBy strLeB l

/-- Render `q` as Python `f"{q:.2%}"` does: percentage with two decimals
(rounding to the nearest hundredth of a percent). -/
def fmtPct (q : ℚ) : String :=
  let c : ℤ := round (q * 10000)
  let n := c.natAbs
  let frac := n % 100
  let fracStr := if frac < 10 then "0" ++ toString frac else toString frac
  (if c < 0 then "-" else "") ++ toString (n / 100) ++ "." ++ fracStr ++ "%"

/-! ### `AnomalyDetector` (`app/services/anomaly_detector.py`) -/

/-- The mutable state of `AnomalyDetector` that the pipeline reads: the
configured contamination and the trained flag.  The fitted sklearn estimators
live outside the state as an oracle (`IsoForestModel`). -/
structure AnomalyDetector where
  contamination : ℚ
  is_trained : Bool
deriving DecidableEq, Repr

/-- Behaviour of the fitted `IsolationForest`: `predict(X)[0]` and
`score_samples(X)[0]`.  `.error` models an exception raised by the library. -/
structure IsoForestModel where
  predictLabel : List ℚ → Except String ℤ
  scoreSamples : List ℚ → Except String ℚ

/-- The three shapes of `details` dict that `AnomalyDetector.predict` can
return: `{}`, `{"error": msg}`, or the full info dict. -/
inductive AnomalyDetails where
  | empty
  | err (msg : String)
  | info (anomaly_score : ℚ) (affected_features : List String)
      (model_confidence : ℚ) (threshold_used : ℚ)
deriving DecidableEq, Repr

/-- The tuple returned by `AnomalyDetector.predict`. -/
structure AnomalyPrediction where
  is_anomaly : Bool
  anomaly_score : ℚ
  severity : SeverityLevel
  action : RemediationAction
  details : AnomalyDetails
deriving DecidableEq, Repr

/-- `AnomalyDetector.train` (lines 40–61): fewer than 10 rows returns early;
otherwise the `fit` calls run under `try` — `fitOk` models whether they
succeed, in which case `is_trained` is set. -/
def AnomalyDetector.train (d : AnomalyDetector) (X : List (List ℚ)) (fitOk : Bool) :
    AnomalyDetector :=
  if X.length < 10 then d
  else if fitOk then { d with is_trained := true } else d

/-- `AnomalyDetector._normalize_score` (lines 115–119). -/
def normalizeScore (score : ℚ) : ℚ :=
  min 1 (max 0 ((-score) * 2))

/-- `AnomalyDetector._determine_severity` (lines 121–130). -/
def determineSeverity (anomaly_score : ℚ) : SeverityLevel :=
  if anomaly_score ≥ 9/10 then .critical
  else if anomaly_score ≥ 7/10 then .high
  else if anomaly_score ≥ 1/2 then .medium
  else .low

/-- `AnomalyDetector._recommend_action` (lines 132–176).  `row` is `X[0]`. -/
def recommendAction (anomaly_score : ℚ) (row : List ℚ) (feature_names : List String) :
    RemediationAction :=
  if anomaly_score < 1/2 then .no_action
  else if feature_names.isEmpty || row.isEmpty then .alert_admin
  else
    let fd := pyDictOfZip feature_names row
    let cpuVals := (fd.filter (fun p => strContains (lowerStr p.1) "cpu")).map (·.2)
    let memVals := (fd.filter (fun p => strContains (lowerStr p.1) "memory")).map (·.2)
    let avgCpu := if cpuVals.isEmpty then 0 else listMean cpuVals
    let avgMem := if memVals.isEmpty then 0 else listMean memVals
    if (!cpuVals.isEmpty || !memVals.isEmpty) && (avgCpu > 80 || avgMem > 80) then
      .scale_up
    else
      let errVals := (fd.filter (fun p => strContains (lowerStr p.1) "error")).map (·.2)
      if !errVals.isEmpty && listMean errVals > 10 then .restart_pod
      else
        let reqVals := (fd.filter (fun p => strContains (lowerStr p.1) "request")).map (·.2)
        if !reqVals.isEmpty && listMean reqVals > 1000 then .throttle_api
        else if anomaly_score ≥ 4/5 then .alert_admin
        else .no_action

/-- `AnomalyDetector._get_affected_features` (lines 178–194): the 5 feature
names with largest `|value|`, stably sorted descending. -/
def getAffectedFeatures (row : List ℚ) (feature_names : List String) : List String :=
  if feature_names.isEmpty || row.isEmpty then []
  else
    let fd := pyDictOfZip feature_names row
    ((stableSortBy (fun a b => qAbs a.2 ≥ qAbs b.2) fd).take 5).map (·.1)

/-- The `try` body of `AnomalyDetector.predict` (lines 82–109). -/
def AnomalyDetector.predictBody (d : AnomalyDetector) (m : IsoForestModel)
    (row : List ℚ) (names : List String) : Except String AnomalyPrediction := do
  let isoPrediction ← m.predictLabel row
  let isoScore ← m.scoreSamples row
  let isAnomalyIso := isoPrediction == -1
  let anomalyScore := normalizeScore (-isoScore)
  let severity := determineSeverity anomalyScore
  let action := recommendAction anomalyScore row names
  let affected := getAffectedFeatures row names
  pure ⟨isAnomalyIso, anomalyScore, severity, action,
    .info anomalyScore affected (1 - qAbs isoScore / 10) d.contamination⟩

/-- `AnomalyDetector.predict` (lines 63–113): untrained default, else the body
with every exception caught and turned into the degraded tuple. -/
def AnomalyDetector.predict (d : AnomalyDetector) (m : IsoForestModel)
    (row : List ℚ) (names : List String) : AnomalyPrediction :=
  if !d.is_trained then ⟨false, 0, .low, .no_action, .empty⟩
  else
    match d.predictBody m row names with
    | .ok r => r
    | .error e => ⟨false, 0, .low, .no_action, .err e⟩

/-! ### `FailureDetector` (`app/services/failure_detector.py`) -/

/-- The mutable state of `FailureDetector` read by the pipeline. -/
structure FailureDetector where
  is_trained : Bool
deriving DecidableEq, Repr

/-- Behaviour of the fitted `RandomForestClassifier`:
`predict_proba(X)[0]`, `predict(X)[0]`, and `feature_importances_`. -/
structure RFModel where
  predictProba : List ℚ → Except String (List ℚ)
  predictLabel : List ℚ → Except String ℤ
  importances : Except String (List ℚ)

/-- The shapes of `details` dict `FailureDetector.predict` can return. -/
inductive FailureDetails where
  | empty
  | err (msg : String)
  | heuristicRate (error_rate : ℚ)
  | heuristicConn
  | trainedInfo (confidence : ℚ) (prediction_probability : ℚ)
      (feature_importance : List (String × ℚ))
deriving DecidableEq, Repr

/-- The tuple returned by `FailureDetector.predict`. -/
structure FailurePrediction where
  failure_detected : Bool
  failure_type : Option String
  severity : SeverityLevel
  actions : List RemediationAction
  confidence : ℚ
  root_cause : Option String
  affected_services : List String
  details : FailureDetails
deriving DecidableEq, Repr

/-- `FailureDetector._heuristic_detection` (lines 97–137). -/
def heuristicDetection (row : List ℚ) (feature_names : List String) : FailurePrediction :=
  if row.isEmpty || feature_names.isEmpty then
    ⟨false, none, .low, [.no_action], 0, none, [], .empty⟩
  else
    let fd := pyDictOfZip feature_names row
    let errorRate := dictGetD fd "error_rate" 0
    let errorCount := dictGetD fd "error_count" 0
    if errorRate > 1/5 || errorCount > 50 then
      ⟨true, some "high_error_rate", .high, [.restart_pod, .alert_admin], 4/5,
        some ("High error rate detected: " ++ fmtPct errorRate), ["api-service"],
        .heuristicRate errorRate⟩
    else if dictHas fd "keyword_connection" && dictGetD fd "keyword_connection" 0 > 10 then
      ⟨true, some "connection_timeout", .medium, [.restart_pod], 7/10,
        some "Multiple connection timeout errors detected", ["database", "api-service"],
        .heuristicConn⟩
    else
      ⟨false, none, .low, [.no_action], 0, none, [], .empty⟩

/-- `FailureDetector._identify_failure_type` (lines 139–154). -/
def identifyFailureType (row : List ℚ) (feature_names : List String) : String :=
  if feature_names.isEmpty || row.isEmpty then "unknown"
  else
    let fd := pyDictOfZip feature_names row
    if dictGetD fd "error_rate" 0 > 3/10 then "service_down"
    else if dictGetD fd "keyword_timeout" 0 > 5 then "connection_timeout"
    else if dictGetD fd "keyword_exception" 0 > 10 then "unhandled_exception"
    else "unknown"

/-- `FailureDetector._determine_failure_severity` (lines 156–170); the `X` and
`feature_names` parameters exist in the source but are unused. -/
def determineFailureSeverity (confidence : ℚ) (_row : List ℚ) (_feature_names : List String) :
    SeverityLevel :=
  if confidence ≥ 9/10 then .critical
  else if confidence ≥ 7/10 then .high
  else if confidence ≥ 1/2 then .medium
  else .low

/-- `FailureDetector._recommend_remediation_actions` (lines 172–193). -/
def recommendRemediationActions (failure_type : String) (severity : SeverityLevel) :
    List RemediationAction :=
  let actions : List RemediationAction :=
    if failure_type == "service_down" then [.restart_pod, .alert_admin]
    else if failure_type == "high_latency" then [.scale_up, .throttle_api]
    else if failure_type == "memory_leak" then [.restart_pod, .alert_admin]
    else if failure_type == "connection_timeout" then [.restart_pod, .scale_up]
    else if failure_type == "unknown" then [.alert_admin]
    else [.alert_admin]
  if (severity == .high || severity == .critical) && !actions.contains .alert_admin then
    actions ++ [.alert_admin]
  else actions

/-- `FailureDetector._analyze_root_cause` (lines 195–217). -/
def analyzeRootCause (row : List ℚ) (feature_names : List String) : String :=
  if feature_names.isEmpty || row.isEmpty then "Unable to determine root cause"
  else
    let fd := pyDictOfZip feature_names row
    let causes : List String :=
      (if dictGetD fd "error_rate" 0 > 1/5 then
        ["High error rate (" ++ fmtPct (dictGetD fd "error_rate" 0) ++ ")"] else []) ++
      (if dictGetD fd "keyword_timeout" 0 > 5 then ["Multiple timeout errors"] else []) ++
      (if dictGetD fd "keyword_connection" 0 > 5 then ["Connection failures"] else [])
    if causes.isEmpty then "Anomalous behavior detected"
    else String.intercalate " and " causes

/-- `np.max` over `predict_proba` output (raises on an empty array). -/
def npMax (l : List ℚ) : Except String ℚ :=
  match l with
  | [] => .error "zero-size array to reduction operation maximum"
  | h :: t => .ok (t.foldl max h)

/-- `FailureDetector._get_feature_importance` (lines 225–234): its internal
bare `except` returns `{}`. -/
def getFeatureImportance (m : RFModel) (feature_names : List String) :
    List (String × ℚ) :=
  if feature_names.isEmpty then []
  else
    match m.importances with
    | .ok imps => (feature_names.zip imps).foldl (fun d p => dictInsert p.1 p.2 d) []
    | .error _ => []

/-- The `try` body of the trained branch of `FailureDetector.predict`
(lines 64–91). -/
def FailureDetector.predictBody (m : RFModel) (row : List ℚ) (names : List String) :
    Except String FailurePrediction := do
  let proba ← m.predictProba row
  let prediction ← m.predictLabel row
  let confidence ← npMax proba
  let failureDetected := prediction == 1
  if failureDetected then
    let ft := identifyFailureType row names
    let sev := determineFailureSeverity confidence row names
    pure ⟨true, some ft, sev, recommendRemediationActions ft sev, confidence,
      some (analyzeRootCause row names), ["api-service", "worker-service"],
      .trainedInfo confidence (if proba.length > 1 then proba.getD 1 0 else confidence)
        (getFeatureImportance m names)⟩
  else
    pure ⟨false, none, .low, [.no_action], confidence, none, [],
      .trainedInfo confidence (if proba.length > 1 then proba.getD 1 0 else confidence)
        (getFeatureImportance m names)⟩

/-- `FailureDetector.predict` (lines 45–95): untrained ⇒ heuristic detection;
trained ⇒ body with exceptions caught into the degraded tuple. -/
def FailureDetector.predict (d : FailureDetector) (m : RFModel)
    (row : List ℚ) (names : List String) : FailurePrediction :=
  if !d.is_trained then heuristicDetection row names
  else
    match FailureDetector.predictBody m row names with
    | .ok r => r
    | .error e => ⟨false, none, .low, [.no_action], 0, none, [], .err e⟩

/-! ### `DataPreprocessor` (`app/services/preprocessing.py`) -/

/-- A cell of the intermediate pandas DataFrame: a number or a string
(label values are strings). -/
inductive Cell where
  | num (q : ℚ)
  | str (s : String)
deriving DecidableEq, Repr

/-- The per-sample row dict built at `preprocessing.py` lines 39–47: the three
base columns, then `**m.labels` — a label whose key collides with a base column
overwrites that column's value with the label's string. -/
def metricRow (m : MetricData) : List (String × Cell) :=
  m.labels.foldl (fun d p => dictInsert p.1 (Cell.str p.2) d)
    [("timestamp", Cell.num (m.timestamp : ℚ)),
     ("metric_type", Cell.str m.metric_type.value),
     ("value", Cell.num m.value)]

/-- Look one column up in a row dict (the base columns are always present). -/
def rowGet (r : List (String × Cell)) (k : String) : Cell :=
  dictGetD r k (Cell.num 0)

/-- `df.sort_values('timestamp')`: comparing a datetime column that a label
turned into strings raises; with all-numeric timestamps, sort ascending.
(pandas' default sort is not stable; ties in `timestamp` are modelled as
resolved by a stable sort, and no verified claim depends on tie order.) -/
def sortRowsByTimestamp (rows : List (List (String × Cell))) :
    Except String (List (List (String × Cell))) :=
  if rows.all (fun r => match rowGet r "timestamp" with | .num _ => true | .str _ => false) then
    .ok (stableSortBy (fun a b =>
      match rowGet a "timestamp", rowGet b "timestamp" with
      | .num x, .num y => x ≤ y
      | _, _ => true) rows)
  else .error "TypeError: timestamp column is not orderable"

/-- For each group the code evaluates `np.mean` first (line 60); on a value
column containing a string that raises, so extraction of the group's numeric
values is guarded as a whole. -/
def cellsToNums : List Cell → Except String (List ℚ)
  | [] => .ok []
  | .num q :: t => do pure (q :: (← cellsToNums t))
  | .str _ :: _ => .error "unsupported operand type(s) for +: 'float' and 'str'"

/-- Population variance; `np.std` is its square root, taken by the float
library and modelled by the `sq` parameter of `preprocessMetrics`. -/
def popVariance (l : List ℚ) : ℚ :=
  listMean (l.map (fun x => (x - listMean l) ^ 2))

/-- `np.min` (callers guard against the empty list). -/
def listMinQ : List ℚ → ℚ
  | [] => 0
  | h :: t => t.foldl (fun a b => if a ≤ b then a else b) h

/-- `np.max` (callers guard against the empty list). -/
def listMaxQ : List ℚ → ℚ
  | [] => 0
  | h :: t => t.foldl (fun a b => if a ≤ b then b else a) h

/-- `np.median`: middle of the ascending sort, or the mean of the two middles
for an even count. -/
def medianQ (l : List ℚ) : ℚ :=
  let s := stableSortBy (fun a b => a ≤ b) l
  let n := s.length
  if n == 0 then 0
  else if n % 2 == 1 then s.getD (n / 2) 0
  else (s.getD (n / 2 - 1) 0 + s.getD (n / 2) 0) / 2

/-- Ordinary-least-squares slope of values against index `0..n-1`
(`np.polyfit(x, values, 1)[0]`, computed exactly; `preprocessing.py` line 75). -/
def olsSlope (l : List ℚ) : ℚ :=
  let n : ℚ := l.length
  let xs : List ℚ := (List.range l.length).map (fun i => (i : ℚ))
  let sx := xs.sum
  let sy := l.sum
  let sxy := ((xs.zip l).map (fun p => p.1 * p.2)).sum
  let sxx := (xs.map (fun x => x * x)).sum
  (n * sxy - sx * sy) / (n * sxx - sx * sx)

/-- Render the group key the way the f-string `f"{metric_type}_mean"` would. -/
def cellName : Cell → String
  | .str s => s
  | .num q => toString q

/-- The seven `{metric_type}_{stat}` features of one group
(`preprocessing.py` lines 59–78), in insertion order. -/
def groupFeatures (sq : ℚ → ℚ) (mt : String) (vals : List ℚ) : List (String × ℚ) :=
  [(mt ++ "_mean", listMean vals),
   (mt ++ "_std", sq (popVariance vals)),
   (mt ++ "_min", listMinQ vals),
   (mt ++ "_max", listMaxQ vals),
   (mt ++ "_median", medianQ vals),
   (mt ++ "_rate_of_change",
     if vals.length > 1 then (vals.getLastD 0 - vals.headD 0) / vals.length else 0),
   (mt ++ "_trend", if vals.length > 2 then olsSlope vals else 0)]

/-- `DataPreprocessor.preprocess_metrics` (lines 20–89), parameterized by the
float square root `sq` used for the `_std` feature.  Returns the feature row
and the sorted feature names; `.error` models an uncaught exception (the
function body has no `try`).  `np.nan_to_num` is the identity on `ℚ`, where no
NaN/±inf exists. -/
def preprocessMetrics (sq : ℚ → ℚ) (metrics : List MetricData) :
    Except String (List ℚ × List String) :=
  match metrics with
  | [] => .ok ([], [])
  | _ :: _ => do
    let rows := metrics.map metricRow
    let sorted ← sortRowsByTimestamp rows
    let types := uniq (sorted.map (fun r => rowGet r "metric_type"))
    let groups ← types.mapM (fun mt => do
      let vals ← cellsToNums
        ((sorted.filter (fun r => rowGet r "metric_type" == mt)).map
          (fun r => rowGet r "value"))
      pure (groupFeatures sq (cellName mt) vals))
    let featDict := groups.flatten.foldl (fun d p => dictInsert p.1 p.2 d) []
    let names := sortStrings (featDict.map (·.1))
    pure (names.map (fun n => dictGetD featDict n 0), names)

/-- The fixed keyword list (`preprocessing.py` line 143). -/
def errorKeywords : List String :=
  ["timeout", "connection", "failed", "exception", "error", "crashed"]

/-- Count of window entries whose lower-cased level equals `lvl`
(the `level_counts` dict lookups, lines 120–127). -/
def levelCount (recent : List LogData) (lvl : String) : ℕ :=
  recent.countP (fun l => lowerStr l.level == lvl)

/-- Count of window entries at level `error` whose lower-cased message contains
the keyword (lines 146–151: each matching entry adds 1 per keyword, however
many times the keyword occurs inside the message). -/
def keywordEntryCount (recent : List LogData) (kw : String) : ℕ :=
  recent.countP (fun l => lowerStr l.level == "error" && strContains (lowerStr l.message) kw)

/-- Features computed from the non-empty filtered window
(`preprocessing.py` lines 117–163). -/
def logFeatures (recent : List LogData) : List ℚ × List String :=
  let errC : ℚ := levelCount recent "error"
  let warnC : ℚ := levelCount recent "warn"
  let infoC : ℚ := levelCount recent "info"
  let total : ℚ := recent.length
  let errorRate : ℚ := if total > 0 then errC / total else 0
  let services := uniq (recent.map (·.service))
  let maxServiceErrors : ℚ :=
    listMaxQ (services.map (fun s => ((recent.countP (fun l => l.service == s)) : ℚ)))
  let featDict : List (String × ℚ) :=
    [("error_count", errC), ("warn_count", warnC), ("info_count", infoC),
     ("total_logs", total), ("error_rate", errorRate),
     ("unique_services", (services.length : ℚ)),
     ("max_service_errors", maxServiceErrors)] ++
    errorKeywords.map (fun kw => ("keyword_" ++ kw, (keywordEntryCount recent kw : ℚ)))
  let names := sortStrings (featDict.map (·.1))
  (names.map (fun n => dictGetD featDict n 0), names)

/-- The log entries selected by the window filter, `timestamp >= now - window`
(`preprocessing.py` lines 110–112).  In the source, `now` is read from the
system clock (`datetime.utcnow()`) at call time; it is an explicit parameter
here so the clock dependence can be reasoned about. -/
def recentOf (logs : List LogData) (window now : ℤ) : List LogData :=
  logs.filter (fun l => now - window ≤ l.timestamp)

/-- `DataPreprocessor.preprocess_logs` (lines 91–163). -/
def preprocessLogs (logs : List LogData) (window now : ℤ) : List ℚ × List String :=
  if logs.isEmpty then ([], [])
  else
    let recent := recentOf logs window now
    if recent.isEmpty then ([], [])
    else logFeatures recent

/-- One named feature of the `preprocess_logs` output (0 when absent). -/
def logFeatureD (logs : List LogData) (window now : ℤ) (name : String) : ℚ :=
  let r := preprocessLogs logs window now
  dictGetD (r.2.zip r.1) name 0

/-- `DataPreprocessor.combine_features` (lines 165–180), on single feature
rows (`size == 0` is emptiness of the row). -/
def combineFeatures (metric_features log_features : List ℚ) : List ℚ :=
  if metric_features.isEmpty && log_features.isEmpty then []
  else if metric_features.isEmpty then log_features
  else if log_features.isEmpty then metric_features
  else metric_features ++ log_features

/-! ### `ModelService` (`app/services/model_service.py`) -/

/-- `AnomalyDetectionResponse` as produced by `ModelService.detect_anomaly`
(the pydantic `timestamp` default field is not part of the detection
contract and is omitted). -/
structure AnomalyResponse where
  is_anomaly : Bool
  anomaly_score : ℚ
  severity : SeverityLevel
  recommended_action : RemediationAction
  confidence : ℚ
  affected_metrics : List String
  details : AnomalyDetails
deriving DecidableEq, Repr

/-- `FailureDetectionResponse` as produced by `ModelService.detect_failure`. -/
structure FailureResponse where
  failure_detected : Bool
  failure_type : Option String
  severity : SeverityLevel
  recommended_actions : List RemediationAction
  confidence : ℚ
  root_cause : Option String
  affected_services : List String
  details : FailureDetails
deriving DecidableEq, Repr

/-- The response built by the `except` handler of `detect_anomaly`
(lines 97–107). -/
def degradedAnomalyResponse (e : String) : AnomalyResponse :=
  ⟨false, 0, .low, .no_action, 0, [], .err e⟩

/-- The response built by the `except` handler of `detect_failure`
(lines 168–179). -/
def degradedFailureResponse (e : String) : FailureResponse :=
  ⟨false, none, .low, [.no_action], 0, none, [], .err e⟩

/-- `details.get('model_confidence', 0.0)` (line 92). -/
def detailsConfidence : AnomalyDetails → ℚ
  | .info _ _ c _ => c
  | _ => 0

/-- `ModelService.detect_anomaly` (lines 50–107).  The whole body runs under
`try`; the only failure source is `preprocess_metrics` (the detector's
`predict` catches internally), so the handler fires exactly on its `.error`.
`affected_metrics = list(set(...))` has unspecified Python set order, modelled
as first-occurrence order; no verified claim depends on that order. -/
def detectAnomaly (sq : ℚ → ℚ) (ad : AnomalyDetector) (m : IsoForestModel)
    (metrics : List MetricData) : AnomalyResponse :=
  match preprocessMetrics sq metrics with
  | .error e => degradedAnomalyResponse e
  | .ok (row, names) =>
    if row.isEmpty then ⟨false, 0, .low, .no_action, 0, [], .err "No features extracted"⟩
    else
      let p := ad.predict m row names
      ⟨p.is_anomaly, p.anomaly_score, p.severity, p.action, detailsConfidence p.details,
        uniq (metrics.map (fun mm => mm.metric_type.value)), p.details⟩

/-- `ModelService.detect_failure` (lines 109–179); `window`/`now` feed the
internal `preprocess_logs` call (`settings.failure_detection_window` and the
system clock). -/
def detectFailure (sq : ℚ → ℚ) (fd : FailureDetector) (m : RFModel)
    (metrics : List MetricData) (logs : List LogData) (window now : ℤ) : FailureResponse :=
  match preprocessMetrics sq metrics with
  | .error e => degradedFailureResponse e
  | .ok (mrow, mnames) =>
    let lr := preprocessLogs logs window now
    let row := combineFeatures mrow lr.1
    let names := mnames ++ lr.2
    if row.isEmpty then
      ⟨false, none, .low, [.no_action], 0, none, [], .err "No features extracted"⟩
    else
      let p := fd.predict m row names
      ⟨p.failure_detected, p.failure_type, p.severity, p.actions, p.confidence,
        p.root_cause, p.affected_services, p.details⟩

/-! ### Concrete sample data used by witnesses and counterexamples -/

/-- A metric sample carrying a label whose key collides with the `value`
column. -/
def badLabelMetric : MetricData := ⟨.cpu_usage, 50, 0, [("value", "999")]⟩

/-- The same sample without labels. -/
def goodMetric : MetricData := ⟨.cpu_usage, 50, 0, []⟩

/-- A fitted-model oracle whose `predict` call raises. -/
def failingIsoModel : IsoForestModel :=
  ⟨fun _ => .error "boom", fun _ => .ok 0⟩

/-- A fitted-model oracle returning an anomalous label and raw score `-2/5`. -/
def anomalousIsoModel : IsoForestModel :=
  ⟨fun _ => .ok (-1), fun _ => .ok (-(2/5))⟩

/-- A random-forest oracle whose `predict_proba` call raises. -/
def failingRFModel : RFModel :=
  ⟨fun _ => .error "rf boom", fun _ => .ok 1, .ok []⟩

/-- A benign random-forest oracle (unused by untrained predictions). -/
def benignRFModel : RFModel :=
  ⟨fun _ => .ok [1], fun _ => .ok 0, .ok []⟩

/-! ### Theorems -/

/-- **C9.** `combine` of two empty vectors is empty; with one empty side it
returns the other unchanged; with two non-empty sides it concatenates the
first argument's entries before the second's, preserving each side's internal
order (no global re-sort). -/
theorem combineFeatures_spec :
    combineFeatures [] [] = ([] : List ℚ) ∧
    (∀ a : List ℚ, combineFeatures a [] = a) ∧
    (∀ b : List ℚ, combineFeatures [] b = b) ∧
    (∀ a b : List ℚ, a ≠ [] → b ≠ [] → combineFeatures a b = a ++ b) := by
  refine ⟨rfl, ?_, ?_, ?_⟩
  · intro a; cases a <;> simp [combineFeatures]
  · intro b; cases b <;> simp [combineFeatures]
  · intro a b ha hb
    cases a with
    | nil => exact absurd rfl ha
    | cons x xs =>
      cases b with
      | nil => exact absurd rfl hb
      | cons y ys => simp [combineFeatures]

/-- Witness for C9 at concrete vectors. -/
theorem combineFeatures_spec_witness :
    combineFeatures [] [] = ([] : List ℚ) ∧
    combineFeatures [(1 : ℚ)] [] = [1] ∧
    combineFeatures [] [(2 : ℚ)] = [2] ∧
    combineFeatures [(1 : ℚ)] [2] = [1, 2] :=
  ⟨combineFeatures_spec.1, combineFeatures_spec.2.1 [1], combineFeatures_spec.2.2.1 [2],
    combineFeatures_spec.2.2.2 [1] [2] (by simp) (by simp)⟩

/-- **C8.** The failure classifier's severity banding agrees with the anomaly
scorer's at every confidence value, and on `[0,1]` the bands form an
exhaustive partition into four contiguous non-overlapping ranges with
boundaries at 0.5 / 0.7 / 0.9. -/
theorem severity_banding_partition :
    (∀ (q : ℚ) (row : List ℚ) (names : List String),
      determineFailureSeverity q row names = determineSeverity q) ∧
    (∀ q : ℚ, 0 ≤ q → q ≤ 1 →
      ((determineSeverity q = .critical ↔ 9/10 ≤ q ∧ q ≤ 1) ∧
       (determineSeverity q = .high ↔ 7/10 ≤ q ∧ q < 9/10) ∧
       (determineSeverity q = .medium ↔ 1/2 ≤ q ∧ q < 7/10) ∧
       (determineSeverity q = .low ↔ 0 ≤ q ∧ q < 1/2))) := by
  constructor
  · intro q row names; rfl
  · intro q h0 h1
    unfold determineSeverity
    split_ifs with h2 h3 h4 <;>
      refine ⟨⟨fun hs => ?_, fun hr => ?_⟩, ⟨fun hs => ?_, fun hr => ?_⟩,
        ⟨fun hs => ?_, fun hr => ?_⟩, ⟨fun hs => ?_, fun hr => ?_⟩⟩ <;>
      first
        | rfl
        | exact ⟨by linarith, by linarith⟩
        | exact absurd hs (by decide)
        | exact ((show False by rcases hr with ⟨ha, hb⟩; linarith).elim)

/-- Witness for C8 at confidence 3/4. -/
theorem severity_banding_partition_witness :
    determineFailureSeverity (3/4) [] [] = determineSeverity (3/4) ∧
    (determineSeverity (3/4) = .high ↔ 7/10 ≤ (3/4 : ℚ) ∧ (3/4 : ℚ) < 9/10) :=
  ⟨severity_banding_partition.1 (3/4) [] [],
    (severity_banding_partition.2 (3/4) (by norm_num) (by norm_num)).2.1⟩

/-- **C7.** Training on fewer than 10 rows returns without error and leaves the
scorer state unchanged (hence UNTRAINED when it was untrained), and prediction
on the untrained scorer is the deterministic default: not anomaly, score 0,
severity LOW, NO_ACTION, empty details (so no affected features). -/
theorem train_small_untrained_default :
    ∀ (d : AnomalyDetector) (X : List (List ℚ)) (fitOk : Bool) (m : IsoForestModel)
      (row : List ℚ) (names : List String),
      X.length < 10 → d.is_trained = false →
      d.train X fitOk = d ∧ (d.train X fitOk).is_trained = false ∧
      (d.train X fitOk).predict m row names = ⟨false, 0, .low, .no_action, .empty⟩ := by
  intro d X fitOk m row names hX hd
  have ht : d.train X fitOk = d := by simp [AnomalyDetector.train, hX]
  refine ⟨ht, by rw [ht, hd], ?_⟩
  rw [ht]
  simp [AnomalyDetector.predict, hd]

/-- Witness for C7: 2 training rows, then a prediction. -/
theorem train_small_untrained_default_witness :
    (AnomalyDetector.train ⟨3/20, false⟩ [[1], [2]] true).predict
      ⟨fun _ => .ok 1, fun _ => .ok 0⟩ [5] ["cpu_usage_mean"] =
      ⟨false, 0, .low, .no_action, .empty⟩ :=
  (train_small_untrained_default ⟨3/20, false⟩ [[1], [2]] true
    ⟨fun _ => .ok 1, fun _ => .ok 0⟩ [5] ["cpu_usage_mean"] (by decide) rfl).2.2

/-- **C2 (code evaluation at the failing input).** A trained scorer whose
fitted model reports the anomalous label and raw density score −2/5 returns
`anomaly_score = 0`, whereas the claimed formula
`clamp(raw_negated_score * 2, 0, 1)` (with `raw_negated_score = −(−2/5)`)
gives 4/5: line 91 of `anomaly_detector.py` passes the already negated score
to `_normalize_score`, which negates it again. -/
theorem anomaly_score_double_negation :
    (AnomalyDetector.predict ⟨3/20, true⟩ anomalousIsoModel [0] ["cpu_usage_mean"]).anomaly_score
      = 0 ∧
    min 1 (max 0 ((-(-(2/5) : ℚ)) * 2)) = 4/5 ∧
    (AnomalyDetector.predict ⟨3/20, true⟩ anomalousIsoModel [0] ["cpu_usage_mean"]).anomaly_score
      ≠ min 1 (max 0 ((-(-(2/5) : ℚ)) * 2)) := by
  have hval : (AnomalyDetector.predict ⟨3/20, true⟩ anomalousIsoModel [0]
      ["cpu_usage_mean"]).anomaly_score = normalizeScore (- -(2/5)) := rfl
  have h1 : normalizeScore (- -(2/5)) = 0 := by
    unfold normalizeScore
    rw [show (-(- -(2/5 : ℚ)) * 2) = -(4/5) by norm_num,
      max_eq_left (by norm_num), min_eq_right (by norm_num)]
  have h2 : min 1 (max 0 ((-(-(2/5) : ℚ)) * 2)) = 4/5 := by
    rw [show ((-(-(2/5) : ℚ)) * 2) = 4/5 by norm_num,
      max_eq_right (by norm_num), min_eq_right (by norm_num)]
  refine ⟨hval.trans h1, h2, ?_⟩
  rw [hval, h1, h2]
  norm_num

/-- A log list with one entry at instant 100 (level `info`). -/
def c3logs : List LogData := [⟨100, "info", "ok", "api"⟩]

/-- `preprocess_logs` factors through the window filter: the result is a
function of the selected entries alone. -/
theorem preprocessLogs_eq_filter (logs : List LogData) (w now : ℤ) :
    preprocessLogs logs w now =
      if (recentOf logs w now).isEmpty then ([], [])
      else logFeatures (recentOf logs w now) := by
  cases logs with
  | nil => simp [preprocessLogs, recentOf]
  | cons l ls => simp [preprocessLogs]

/-- **C3 counterexample.** Log feature extraction is not independent of the
moment it runs: `preprocess_logs` reads "now" from the system clock
(`preprocessing.py` line 110, `datetime.utcnow()`, modelled here as the
explicit clock argument), and the same log list with the same window length
produces different feature vectors at clock instants 200 and 1000. -/
theorem log_extraction_clock_dependent :
    preprocessLogs c3logs 300 200 ≠ preprocessLogs c3logs 300 1000 := by
  intro h
  have h1 : logFeatureD c3logs 300 200 "total_logs" = 1 := by decide
  have h2 : logFeatureD c3logs 300 1000 "total_logs" = 0 := by decide
  have h3 : logFeatureD c3logs 300 200 "total_logs" =
      logFeatureD c3logs 300 1000 "total_logs" := by
    unfold logFeatureD
    rw [h]
  rw [h1, h2] at h3
  norm_num at h3

/-- **C3 amended.** The window filter uses the clock instant read inside
`preprocess_logs`, not a caller-supplied "now"; extraction is deterministic
given that reading: whenever the window filters select the same entry
sequence — in particular for two invocations on the same log sequence and
window length whose internal clock readings coincide — the resulting feature
vectors are identical. -/
theorem log_extraction_deterministic :
    ∀ (logs₁ logs₂ : List LogData) (w₁ w₂ now₁ now₂ : ℤ),
      recentOf logs₁ w₁ now₁ = recentOf logs₂ w₂ now₂ →
      preprocessLogs logs₁ w₁ now₁ = preprocessLogs logs₂ w₂ now₂ := by
  intro l₁ l₂ w₁ w₂ n₁ n₂ h
  rw [preprocessLogs_eq_filter, preprocessLogs_eq_filter, h]

/-- Witness for the amended C3: clock readings 200 and 250 select the same
window contents, so the vectors agree. -/
theorem log_extraction_deterministic_witness :
    preprocessLogs c3logs 300 200 = preprocessLogs c3logs 300 250 :=
  log_extraction_deterministic c3logs c3logs 300 300 200 250 (by decide)

/-- Modelled from the claim's words (C6): the number of (possibly overlapping)
substring occurrences of `pat` inside `hay`. -/
def occCount (hay pat : String) : ℕ :=
  (List.range hay.toList.length).countP (fun i => isPreOf pat.toList (hay.toList.drop i))

/-- A log list with one error entry whose message contains "timeout" twice. -/
def c6logs : List LogData := [⟨100, "error", "timeout timeout", "api"⟩]

/-- **C6 counterexample.** The emitted `keyword_timeout` feature is not the
number of substring occurrences of the keyword in the message: for a single
error entry with message "timeout timeout" the code emits 1 (one matching
entry, `preprocessing.py` lines 146–151 add 1 per entry, not per occurrence)
while the message contains 2 occurrences. -/
theorem keyword_count_not_occurrences :
    logFeatureD c6logs 300 200 "keyword_timeout" = 1 ∧
    occCount "timeout timeout" "timeout" = 2 ∧
    logFeatureD c6logs 300 200 "keyword_timeout" ≠
      (occCount "timeout timeout" "timeout" : ℚ) := by
  refine ⟨by decide, by decide, ?_⟩
  intro h
  have h1 : logFeatureD c6logs 300 200 "keyword_timeout" = 1 := by decide
  have h2 : occCount "timeout timeout" "timeout" = 2 := by decide
  rw [h1, h2] at h
  norm_num at h

set_option maxHeartbeats 3200000 in
/-- **C6 amended.** The keyword scan considers only window entries whose
lower-cased level is "error" and, for each keyword of the fixed set
{timeout, connection, failed, exception, error, crashed}, emits as
`keyword_{kw}` the number of such entries whose lower-cased message contains
the keyword as a substring (each entry counted once, however many times the
keyword occurs in it). -/
theorem keyword_features_count_entries :
    ∀ (logs : List LogData) (window now : ℤ) (kw : String), kw ∈ errorKeywords →
      logFeatureD logs window now ("keyword_" ++ kw) =
        ((recentOf logs window now).countP
          (fun l => lowerStr l.level == "error" && strContains (lowerStr l.message) kw) : ℚ) := by
  intro logs window now kw hkw
  unfold logFeatureD
  rw [preprocessLogs_eq_filter]
  rcases hR : recentOf logs window now with _ | ⟨r, rs⟩
  · simp [dictGetD]
  · simp only [List.isEmpty_cons, Bool.false_eq_true, if_false]
    simp only [errorKeywords, List.mem_cons, List.not_mem_nil, or_false] at hkw
    rcases hkw with rfl | rfl | rfl | rfl | rfl | rfl <;> rfl

/-- Witness for the amended C6 at the concrete log list. -/
theorem keyword_features_count_entries_witness :
    logFeatureD c6logs 300 200 ("keyword_" ++ "timeout") =
      ((recentOf c6logs 300 200).countP
        (fun l => lowerStr l.level == "error" && strContains (lowerStr l.message) "timeout") : ℚ) :=
  keyword_features_count_entries c6logs 300 200 "timeout" (by decide)

/-- **C10.** A label key named `value` corrupts metric feature extraction:
the `**m.labels` splat (`preprocessing.py` lines 40–46) is written after the
base columns, so the label overwrites the sample's `value` with a string, and
`np.mean` over that column raises — two batches agreeing on
(metric_type, value, timestamp) but differing in labels do not yield the same
features; with no labels the same sample extracts fine. -/
theorem label_splat_corrupts_value :
    ∀ sq : ℚ → ℚ,
      preprocessMetrics sq [badLabelMetric] =
        .error "unsupported operand type(s) for +: 'float' and 'str'" ∧
      (preprocessMetrics sq [goodMetric]).isOk = true ∧
      preprocessMetrics sq [badLabelMetric] ≠ preprocessMetrics sq [goodMetric] := by
  intro sq
  refine ⟨rfl, rfl, ?_⟩
  intro h
  have h2 : (preprocessMetrics sq [goodMetric]).isOk = true := rfl
  rw [← h] at h2
  rw [show preprocessMetrics sq [badLabelMetric] =
    .error "unsupported operand type(s) for +: 'float' and 'str'" from rfl] at h2
  simp [Except.isOk, Except.toBool] at h2

/-- `dict(zip(ks, []))` is empty. -/
theorem pyDictOfZip_nil_right (ks : List String) : pyDictOfZip ks [] = [] := by
  simp [pyDictOfZip]

/-- `dict(zip([], vs))` is empty. -/
theorem pyDictOfZip_nil_left (vs : List ℚ) : pyDictOfZip [] vs = [] := by
  simp [pyDictOfZip]

/-- A `get` that returns something other than its default found the key. -/
theorem dictHas_of_getD_ne {d : List (String × ℚ)} {k : String} {dflt : ℚ}
    (h : dictGetD d k dflt ≠ dflt) : dictHas d k = true := by
  unfold dictGetD at h
  rcases hf : d.find? (fun p => p.1 == k) with _ | p
  · rw [hf] at h
    exact absurd rfl h
  · have hp := List.find?_some hf
    exact List.any_eq_true.mpr ⟨p, List.mem_of_find?_eq_some hf, hp⟩

/-- **C5.** For every feature row given to the UNTRAINED failure classifier:
`error_rate > 0.2` or `error_count > 50` yields the high-error-rate verdict
(detected, type "high_error_rate", HIGH, [RESTART_POD, ALERT_ADMIN],
confidence 0.8, formatted error-rate root cause, affected ["api-service"]);
otherwise `keyword_connection > 10` yields the connection-timeout verdict
(detected, MEDIUM, [RESTART_POD], confidence 0.7); otherwise the row is not
detected, severity LOW, actions [NO_ACTION], confidence 0. -/
theorem heuristic_detection_spec :
    ∀ (m : RFModel) (row : List ℚ) (names : List String),
      (dictGetD (pyDictOfZip names row) "error_rate" 0 > 1/5 ∨
          dictGetD (pyDictOfZip names row) "error_count" 0 > 50 →
        FailureDetector.predict ⟨false⟩ m row names =
          ⟨true, some "high_error_rate", .high, [.restart_pod, .alert_admin], 4/5,
            some ("High error rate detected: " ++
              fmtPct (dictGetD (pyDictOfZip names row) "error_rate" 0)),
            ["api-service"],
            .heuristicRate (dictGetD (pyDictOfZip names row) "error_rate" 0)⟩) ∧
      (¬(dictGetD (pyDictOfZip names row) "error_rate" 0 > 1/5 ∨
          dictGetD (pyDictOfZip names row) "error_count" 0 > 50) →
        dictGetD (pyDictOfZip names row) "keyword_connection" 0 > 10 →
        FailureDetector.predict ⟨false⟩ m row names =
          ⟨true, some "connection_timeout", .medium, [.restart_pod], 7/10,
            some "Multiple connection timeout errors detected",
            ["database", "api-service"], .heuristicConn⟩) ∧
      (¬(dictGetD (pyDictOfZip names row) "error_rate" 0 > 1/5 ∨
          dictGetD (pyDictOfZip names row) "error_count" 0 > 50) →
        ¬(dictGetD (pyDictOfZip names row) "keyword_connection" 0 > 10) →
        FailureDetector.predict ⟨false⟩ m row names =
          ⟨false, none, .low, [.no_action], 0, none, [], .empty⟩) := by
  intro m row names
  have hpred : FailureDetector.predict ⟨false⟩ m row names = heuristicDetection row names := rfl
  have hguard : (row.isEmpty || names.isEmpty) = true → pyDictOfZip names row = [] := by
    intro hg
    rcases Bool.or_eq_true_iff.mp hg with h | h
    · rw [List.isEmpty_iff.mp h, pyDictOfZip_nil_right]
    · rw [List.isEmpty_iff.mp h, pyDictOfZip_nil_left]
  refine ⟨?_, ?_, ?_⟩
  · intro h1
    rw [hpred]
    simp only [heuristicDetection]
    split_ifs with hg hc1 hc2
    · exfalso
      have h0r : dictGetD ([] : List (String × ℚ)) "error_rate" 0 = 0 := rfl
      have h0c : dictGetD ([] : List (String × ℚ)) "error_count" 0 = 0 := rfl
      rw [hguard hg, h0r, h0c] at h1
      rcases h1 with h | h <;> norm_num at h
    · rfl
    · exfalso
      simp only [Bool.or_eq_true, decide_eq_true_eq, not_or] at hc1
      exact h1.elim (fun h => hc1.1 h) (fun h => hc1.2 h)
    · exfalso
      simp only [Bool.or_eq_true, decide_eq_true_eq, not_or] at hc1
      exact h1.elim (fun h => hc1.1 h) (fun h => hc1.2 h)
  · intro h1 h2
    rw [hpred]
    simp only [heuristicDetection]
    split_ifs with hg hc1 hc2
    · exfalso
      have h0k : dictGetD ([] : List (String × ℚ)) "keyword_connection" 0 = 0 := rfl
      rw [hguard hg, h0k] at h2
      norm_num at h2
    · exfalso
      simp only [Bool.or_eq_true, decide_eq_true_eq] at hc1
      exact h1 hc1
    · rfl
    · exfalso
      have hhas : dictHas (pyDictOfZip names row) "keyword_connection" = true :=
        dictHas_of_getD_ne (ne_of_gt (lt_trans (by norm_num) h2))
      simp only [Bool.and_eq_true, decide_eq_true_eq, not_and] at hc2
      exact hc2 hhas h2
  · intro h1 h2
    rw [hpred]
    simp only [heuristicDetection]
    split_ifs with hg hc1 hc2
    · rfl
    · exfalso
      simp only [Bool.or_eq_true, decide_eq_true_eq] at hc1
      exact h1 hc1
    · exfalso
      simp only [Bool.and_eq_true, decide_eq_true_eq] at hc2
      exact h2 hc2.2
    · rfl

/-- Witness for C5: untrained classifier on the single feature
`error_rate = 1/4`. -/
theorem heuristic_detection_spec_witness :
    FailureDetector.predict ⟨false⟩ benignRFModel [1/4] ["error_rate"] =
      ⟨true, some "high_error_rate", .high, [.restart_pod, .alert_admin], 4/5,
        some ("High error rate detected: " ++ fmtPct (1/4)), ["api-service"],
        .heuristicRate (1/4)⟩ :=
  (heuristic_detection_spec benignRFModel [1/4] ["error_rate"]).1
    (Or.inl (show (1/4 : ℚ) > 1/5 by norm_num))

/-- Modelled from the claim's words (C4): first-match priority where rule 1
takes the mean over ALL features whose name contains "cpu" or "memory"
(case-insensitive), and rules apply only when the score is at least 0.5. -/
def claimRecommendAction (anomaly_score : ℚ) (row : List ℚ) (feature_names : List String) :
    RemediationAction :=
  if anomaly_score < 1/2 then .no_action
  else
    let fd := pyDictOfZip feature_names row
    let cpuMemVals := (fd.filter (fun p =>
      strContains (lowerStr p.1) "cpu" || strContains (lowerStr p.1) "memory")).map (·.2)
    if !cpuMemVals.isEmpty && listMean cpuMemVals > 80 then .scale_up
    else
      let errVals := (fd.filter (fun p => strContains (lowerStr p.1) "error")).map (·.2)
      if !errVals.isEmpty && listMean errVals > 10 then .restart_pod
      else
        let reqVals := (fd.filter (fun p => strContains (lowerStr p.1) "request")).map (·.2)
        if !reqVals.isEmpty && listMean reqVals > 1000 then .throttle_api
        else if anomaly_score ≥ 4/5 then .alert_admin
        else .no_action

/-- **C4 counterexample.** At score 0.6 with features
`cpu_a = 100, memory_b = memory_c = memory_d = 0` the source
(`_recommend_action`, lines 148–157) averages the "cpu" features and the
"memory" features separately (`avg_cpu = 100 > 80`) and returns SCALE_UP,
while the claim's mean over all cpu-or-memory features is 25, which selects
no rule and — the score being below 0.8 — yields NO_ACTION. -/
theorem action_priority_counterexample :
    recommendAction (3/5) [100, 0, 0, 0] ["cpu_a", "memory_b", "memory_c", "memory_d"]
      = .scale_up ∧
    claimRecommendAction (3/5) [100, 0, 0, 0] ["cpu_a", "memory_b", "memory_c", "memory_d"]
      = .no_action ∧
    recommendAction (3/5) [100, 0, 0, 0] ["cpu_a", "memory_b", "memory_c", "memory_d"] ≠
      claimRecommendAction (3/5) [100, 0, 0, 0] ["cpu_a", "memory_b", "memory_c", "memory_d"] := by
  refine ⟨?_, ?_, ?_⟩
  · norm_num +decide [recommendAction, pyDictOfZip, dictInsert, strContains, subIn, isPreOf,
      lowerStr, lowerChar, listMean]
  · norm_num +decide [claimRecommendAction, pyDictOfZip, dictInsert, strContains, subIn,
      isPreOf, lowerStr, lowerChar, listMean]
  · norm_num +decide [recommendAction, claimRecommendAction, pyDictOfZip, dictInsert,
      strContains, subIn, isPreOf, lowerStr, lowerChar, listMean]

/-- The C4 amendment's rule-1 gate, as the code implements it, matches
"either group's own mean exceeds the threshold". -/
theorem meanGate_iff (a b : List ℚ) :
    ((!a.isEmpty || !b.isEmpty) &&
        (decide ((if a.isEmpty then (0 : ℚ) else listMean a) > 80) ||
          decide ((if b.isEmpty then (0 : ℚ) else listMean b) > 80))) = true ↔
      (a ≠ [] ∧ listMean a > 80) ∨ (b ≠ [] ∧ listMean b > 80) := by
  constructor
  · intro h
    rcases Bool.and_eq_true_iff.mp h with ⟨_, hgt⟩
    rcases Bool.or_eq_true_iff.mp hgt with h80 | h80
    · have h80p := of_decide_eq_true h80
      by_cases ha : a = []
      · rw [if_pos (by simp [ha])] at h80p
        norm_num at h80p
      · exact Or.inl ⟨ha, by rwa [if_neg (by simp [ha])] at h80p⟩
    · have h80p := of_decide_eq_true h80
      by_cases hb : b = []
      · rw [if_pos (by simp [hb])] at h80p
        norm_num at h80p
      · exact Or.inr ⟨hb, by rwa [if_neg (by simp [hb])] at h80p⟩
  · intro h
    rcases h with ⟨hne, hgt⟩ | ⟨hne, hgt⟩
    · have he : a.isEmpty = false := by
        cases a with
        | nil => exact absurd rfl hne
        | cons x l => rfl
      simp [he, hgt]
    · have he : b.isEmpty = false := by
        cases b with
        | nil => exact absurd rfl hne
        | cons x l => rfl
      simp [he, hgt]

/-- The non-emptiness-and-mean gates of rules 2 and 3, as Booleans in the
code, match their propositional reading. -/
theorem neMean_iff (l : List ℚ) (t : ℚ) :
    (!l.isEmpty && decide (listMean l > t)) = true ↔ (l ≠ [] ∧ listMean l > t) := by
  constructor
  · intro h
    rcases Bool.and_eq_true_iff.mp h with ⟨h1, h2⟩
    refine ⟨?_, of_decide_eq_true h2⟩
    intro hl
    rw [hl] at h1
    simp at h1
  · intro h
    have he : l.isEmpty = false := by
      cases l with
      | nil => exact absurd rfl h.1
      | cons x xs => rfl
    simp [he, h.2]

/-- **C4 amended.** Action selection follows the fixed first-match priority
order, only when score ≥ 0.5, with two corrections forced by the source: rule
1 averages the "cpu"-named features and the "memory"-named features
separately and fires when either group is non-empty with mean > 80; and when
the feature-name list or the row is empty, a score ≥ 0.5 yields ALERT_ADMIN
directly.  Written as the claim-style rule chain `amendedRecommendAction`,
the source's `_recommend_action` agrees with it on every input. -/
def amendedRecommendAction (anomaly_score : ℚ) (row : List ℚ) (feature_names : List String) :
    RemediationAction :=
  if anomaly_score < 1/2 then .no_action
  else if feature_names = [] ∨ row = [] then .alert_admin
  else
    let fd := pyDictOfZip feature_names row
    let cpuVals := (fd.filter (fun p => strContains (lowerStr p.1) "cpu")).map (·.2)
    let memVals := (fd.filter (fun p => strContains (lowerStr p.1) "memory")).map (·.2)
    if (cpuVals ≠ [] ∧ listMean cpuVals > 80) ∨ (memVals ≠ [] ∧ listMean memVals > 80) then
      .scale_up
    else
      let errVals := (fd.filter (fun p => strContains (lowerStr p.1) "error")).map (·.2)
      if errVals ≠ [] ∧ listMean errVals > 10 then .restart_pod
      else
        let reqVals := (fd.filter (fun p => strContains (lowerStr p.1) "request")).map (·.2)
        if reqVals ≠ [] ∧ listMean reqVals > 1000 then .throttle_api
        else if anomaly_score ≥ 4/5 then .alert_admin
        else .no_action

/-- Theorem for the amended C4: the source's action selection coincides with
the amended rule chain on every score, row and name list. -/
theorem recommendAction_amended_eq :
    ∀ (s : ℚ) (row : List ℚ) (names : List String),
      recommendAction s row names = amendedRecommendAction s row names := by
  intro s row names
  simp only [recommendAction, amendedRecommendAction]
  by_cases h1 : s < 1/2
  · rw [if_pos h1, if_pos h1]
  · rw [if_neg h1, if_neg h1]
    by_cases h2 : names = [] ∨ row = []
    · have h2b : (names.isEmpty || row.isEmpty) = true := by
        rcases h2 with h | h <;> simp [h]
      rw [if_pos h2b, if_pos h2]
    · push_neg at h2
      have h2b : ¬((names.isEmpty || row.isEmpty) = true) := by
        have hn : names.isEmpty = false := by
          cases names with
          | nil => exact absurd rfl h2.1
          | cons a l => rfl
        have hr : row.isEmpty = false := by
          cases row with
          | nil => exact absurd rfl h2.2
          | cons a l => rfl
        rw [hn, hr]
        simp
      rw [if_neg h2b, if_neg (not_or.mpr ⟨h2.1, h2.2⟩)]
      generalize ((pyDictOfZip names row).filter
        (fun p => strContains (lowerStr p.1) "cpu")).map (fun p => p.2) = A
      generalize ((pyDictOfZip names row).filter
        (fun p => strContains (lowerStr p.1) "memory")).map (fun p => p.2) = B
      generalize ((pyDictOfZip names row).filter
        (fun p => strContains (lowerStr p.1) "error")).map (fun p => p.2) = E
      generalize ((pyDictOfZip names row).filter
        (fun p => strContains (lowerStr p.1) "request")).map (fun p => p.2) = R
      by_cases h3 : (A ≠ [] ∧ listMean A > 80) ∨ (B ≠ [] ∧ listMean B > 80)
      · rw [if_pos ((meanGate_iff A B).mpr h3), if_pos h3]
      · rw [if_neg (fun hc => h3 ((meanGate_iff A B).mp hc)), if_neg h3]
        by_cases h4 : E ≠ [] ∧ listMean E > 10
        · rw [if_pos ((neMean_iff E 10).mpr h4), if_pos h4]
        · rw [if_neg (fun hc => h4 ((neMean_iff E 10).mp hc)), if_neg h4]
          by_cases h5 : R ≠ [] ∧ listMean R > 1000
          · rw [if_pos ((neMean_iff R 1000).mpr h5), if_pos h5]
          · rw [if_neg (fun hc => h5 ((neMean_iff R 1000).mp hc)), if_neg h5]

/-- **C1.** Detection is total and fail-soft: `predict` and the `ModelService`
methods are total functions (their embedded types return plain results, never
an exception), and whenever the internal computation fails — the fitted
model raising inside `AnomalyDetector.predict` or `FailureDetector.predict`,
or preprocessing raising inside `detect_anomaly` / `detect_failure` — the
caller receives exactly the degraded result: not-anomaly / not-detected,
score 0, severity LOW, NO_ACTION, with `details.error` set to the
description. -/
theorem detection_total_degraded :
    (∀ (d : AnomalyDetector) (m : IsoForestModel) (row : List ℚ) (names : List String)
        (e : String),
      d.is_trained = true → d.predictBody m row names = .error e →
      d.predict m row names = ⟨false, 0, .low, .no_action, .err e⟩) ∧
    (∀ (d : FailureDetector) (m : RFModel) (row : List ℚ) (names : List String) (e : String),
      d.is_trained = true → FailureDetector.predictBody m row names = .error e →
      d.predict m row names = ⟨false, none, .low, [.no_action], 0, none, [], .err e⟩) ∧
    (∀ (sq : ℚ → ℚ) (ad : AnomalyDetector) (m : IsoForestModel) (metrics : List MetricData)
        (e : String),
      preprocessMetrics sq metrics = .error e →
      detectAnomaly sq ad m metrics = degradedAnomalyResponse e) ∧
    (∀ (sq : ℚ → ℚ) (fd : FailureDetector) (m : RFModel) (metrics : List MetricData)
        (logs : List LogData) (window now : ℤ) (e : String),
      preprocessMetrics sq metrics = .error e →
      detectFailure sq fd m metrics logs window now = degradedFailureResponse e) := by
  refine ⟨?_, ?_, ?_, ?_⟩
  · intro d m row names e ht herr
    unfold AnomalyDetector.predict
    rw [ht, herr]
    rfl
  · intro d m row names e ht herr
    unfold FailureDetector.predict
    rw [ht, herr]
    rfl
  · intro sq ad m metrics e herr
    unfold detectAnomaly
    rw [herr]
  · intro sq fd m metrics logs window now e herr
    unfold detectFailure
    rw [herr]

/-- Witness for C1: a raising fitted model behind each trained detector, and
the label-corrupted batch that makes preprocessing raise, each produce the
degraded responses. -/
theorem detection_total_degraded_witness :
    AnomalyDetector.predict ⟨3/20, true⟩ failingIsoModel [1] ["cpu_usage_mean"] =
      ⟨false, 0, .low, .no_action, .err "boom"⟩ ∧
    FailureDetector.predict ⟨true⟩ failingRFModel [1] ["error_rate"] =
      ⟨false, none, .low, [.no_action], 0, none, [], .err "rf boom"⟩ ∧
    detectAnomaly (fun _ => 0) ⟨3/20, true⟩ failingIsoModel [badLabelMetric] =
      degradedAnomalyResponse "unsupported operand type(s) for +: 'float' and 'str'" ∧
    detectFailure (fun _ => 0) ⟨true⟩ failingRFModel [badLabelMetric] [] 300 0 =
      degradedFailureResponse "unsupported operand type(s) for +: 'float' and 'str'" :=
  ⟨detection_total_degraded.1 ⟨3/20, true⟩ failingIsoModel [1] ["cpu_usage_mean"] "boom"
      rfl rfl,
    detection_total_degraded.2.1 ⟨true⟩ failingRFModel [1] ["error_rate"] "rf boom" rfl rfl,
    detection_total_degraded.2.2.1 (fun _ => 0) ⟨3/20, true⟩ failingIsoModel
      [badLabelMetric] "unsupported operand type(s) for +: 'float' and 'str'" rfl,
    detection_total_degraded.2.2.2 (fun _ => 0) ⟨true⟩ failingRFModel [badLabelMetric] []
      300 0 "unsupported operand type(s) for +: 'float' and 'str'" rfl⟩

end Aegis
